import Mathlib

/-!
Verification development for the cloudstrate-cli mapping core.

This file gives a shallow embedding of the Phase 1 / Phase 2 mapping
pipeline (`cloudstrate/mapper/phase1.py`, `cloudstrate/mapper/phase2.py`)
and of the analyst query layer (`cloudstrate/analyst/query.py`), and
proves the stated properties of those modules against the embedding.

Python strings are modelled as Lean `String`s; the Python string methods
used by the source (`strip`, `upper`, `lower`, `replace`, `startswith`,
substring containment) are re-implemented structurally on `List Char`
so that all definitions evaluate inside the kernel.

File contents written as YAML are modelled by the YAML document tree
(`Yaml` below); the text-level YAML dumper/parser is an external
collaborator of the repository and is out of scope, so saving a state
produces its document tree and loading parses that tree back.
-/

namespace Cloudstrate

/-! ## Python string primitives -/

/-- One step bounded by fuel: replace every occurrence of `pat` by `rep`,
scanning left to right (semantics of Python `str.replace` for a
non-empty pattern). -/
def pyReplaceAux (pat rep : List Char) : Nat → List Char → List Char
  | 0, s => s
  | _+1, [] => []
  | fuel+1, c :: rest =>
    if pat.isPrefixOf (c :: rest) && !pat.isEmpty then
      rep ++ pyReplaceAux pat rep fuel (List.drop pat.length (c :: rest))
    else
      c :: pyReplaceAux pat rep fuel rest

/-- Python `s.replace(pat, rep)` for a non-empty pattern. -/
def pyReplace (s pat rep : String) : String :=
  ⟨pyReplaceAux pat.data rep.data s.data.length s.data⟩

/-- Python `s.strip()`: drop leading and trailing whitespace. -/
def pyStrip (s : String) : String :=
  ⟨((s.data.dropWhile Char.isWhitespace).reverse.dropWhile Char.isWhitespace).reverse⟩

/-- Python `s.upper()` (ASCII). -/
def pyUpper (s : String) : String := ⟨s.data.map Char.toUpper⟩

/-- Python `s.lower()` (ASCII). -/
def pyLower (s : String) : String := ⟨s.data.map Char.toLower⟩

/-- Python `needle in hay` on strings: contiguous-substring test. -/
def isSubstrOf (needle : List Char) : List Char → Bool
  | [] => needle.isEmpty
  | c :: rest => needle.isPrefixOf (c :: rest) || isSubstrOf needle rest

/-! ## YAML document trees

`yaml.dump` / `yaml.safe_load` (external collaborators) are modelled as
the identity on this document tree; comments written before the YAML
body are not part of the data model. -/

/-- A YAML document value: scalar string, sequence, or mapping. -/
inductive Yaml where
  | str : String → Yaml
  | seq : List Yaml → Yaml
  | map : List (String × Yaml) → Yaml

/-- Look a key up in a YAML mapping's key/value list (first hit wins,
like a Python dict with unique keys). -/
def lookupKey (k : String) (kvs : List (String × Yaml)) : Option Yaml :=
  (kvs.find? (fun kv => kv.1 == k)).map (·.2)

/-- Decode a YAML scalar string. -/
def decodeStr : Yaml → Option String
  | .str s => some s
  | _ => none

/-- Decode a list of YAML values elementwise, failing if any element
fails. -/
def decodeList (f : Yaml → Option α) : List Yaml → Option (List α)
  | [] => some []
  | y :: ys => do
    let a ← f y
    let as ← decodeList f ys
    pure (a :: as)

/-- Decode a YAML sequence elementwise. -/
def decodeSeq (f : Yaml → Option α) : Yaml → Option (List α)
  | .seq l => decodeList f l
  | _ => none

/-- Decode a YAML sequence of scalar strings. -/
def decodeStrList : Yaml → Option (List String) :=
  decodeSeq decodeStr

/-! ## Scan result (external input, `scan_data` JSON) -/

/-- One entry of `scan_data["organizational_units"]`: `ou["id"]` is
required by the source (`ou["id"]` indexing), `name` is optional
(`ou.get("name", ou["id"])`). -/
structure OrgUnit where
  id : String
  name : Option String := none
deriving DecidableEq, Repr

/-- One entry of `scan_data["accounts"]`: `account["id"]` required,
`name` optional (`account.get("name", account["id"])`). -/
structure Account where
  id : String
  name : Option String := none
deriving DecidableEq, Repr

/-- One entry of `scan_data["vpcs"]`: only `vpc["id"]` is read. -/
structure Vpc where
  id : String
deriving DecidableEq, Repr

/-- The parts of the scan-result JSON read by `Phase1Mapper._map_basic`
(each accessed with `scan_data.get(key, [])`). -/
structure ScanResult where
  organizational_units : List OrgUnit := []
  accounts : List Account := []
  vpcs : List Vpc := []
deriving DecidableEq, Repr

/-! ## Mapping state -/

/-- A security zone dict as built by `_map_basic`. -/
structure SecurityZone where
  id : String
  name : String
  source_ou_id : String
  description : String
deriving DecidableEq, Repr

/-- A tenant record (`{id, name, security_zone}` per the data model);
`_map_basic` always leaves the `tenants` list empty. -/
structure Tenant where
  id : String
  name : String
  security_zone : String
deriving DecidableEq, Repr

/-- A subtenant dict as built by `_map_basic`. -/
structure Subtenant where
  id : String
  name : String
  aws_accounts : List String
  description : String
deriving DecidableEq, Repr

/-- A network domain record (`{id, name, vpcs}` per the data model);
`_map_basic` always leaves the `network_domains` list empty. -/
structure NetworkDomain where
  id : String
  name : String
  vpcs : List String
deriving DecidableEq, Repr

/-- A proposal dict. The keys actually written by `_generate_proposals`
are `type`, `description`, one payload key (`subtenants` or `vpcs`) and
`status`; `id` is the key `accept_proposal`/`reject_proposal` look up
with `proposal.get("id")`, absent (`none`) unless some other producer
set it. -/
structure Proposal where
  id : Option String := none
  type : String
  description : String
  subtenants : Option (List String) := none
  vpcs : Option (List String) := none
  status : String
deriving DecidableEq, Repr

/-- The mapping-state dict produced by `Phase1Mapper._map_basic` and
consumed by `Phase2Server`. -/
structure MappingState where
  security_zones : List SecurityZone := []
  tenants : List Tenant := []
  subtenants : List Subtenant := []
  network_domains : List NetworkDomain := []
  proposals : List Proposal := []
deriving DecidableEq, Repr

/-! ## Phase 1 mapper (`cloudstrate/mapper/phase1.py`) -/

/-- `Phase1Mapper._generate_proposals(state, scan_data)`. -/
def generate_proposals (state : MappingState) (scan_data : ScanResult) :
    List Proposal :=
  let proposals : List Proposal := []
  let proposals :=
    if 1 < state.subtenants.length then
      proposals ++ [{ type := "tenant_grouping",
                      description := "Group subtenants into logical tenants",
                      subtenants := some (state.subtenants.map (·.id)),
                      status := "pending" }]
    else proposals
  let vpcs := scan_data.vpcs
  let proposals :=
    if vpcs.isEmpty then proposals
    else
      proposals ++ [{ type := "network_domain",
                      description := "Create network domains from " ++
                        toString vpcs.length ++ " VPCs",
                      vpcs := some (vpcs.map (·.id)),
                      status := "pending" }]
  proposals

/-- `Phase1Mapper._map_basic(scan_data, decisions)`: the basic fallback
mapping (the `decisions` dict is loaded but not used by this path). -/
def map_basic (scan_data : ScanResult) (decisions : Yaml) : MappingState :=
  let security_zones := scan_data.organizational_units.map (fun ou =>
    { id := "sz-" ++ pyReplace ou.id "ou-" ""
      name := ou.name.getD ou.id
      source_ou_id := ou.id
      description := "Security zone from OU: " ++ ou.name.getD ou.id
      : SecurityZone })
  let subtenants := scan_data.accounts.map (fun account =>
    { id := "st-" ++ account.id
      name := account.name.getD account.id
      aws_accounts := [account.id]
      description := "Subtenant for account: " ++ account.name.getD account.id
      : Subtenant })
  let state : MappingState :=
    { security_zones := security_zones
      tenants := []
      subtenants := subtenants
      network_domains := []
      proposals := [] }
  { state with proposals := generate_proposals state scan_data }

/-! ## YAML encoding of the mapping state (what `save_state` writes) -/

/-- YAML document of a security-zone dict. -/
def encodeZone (z : SecurityZone) : Yaml :=
  .map [("id", .str z.id), ("name", .str z.name),
        ("source_ou_id", .str z.source_ou_id),
        ("description", .str z.description)]

/-- Parse a security-zone dict back. -/
def decodeZone : Yaml → Option SecurityZone
  | .map kvs => do
    let i ← (lookupKey "id" kvs).bind decodeStr
    let n ← (lookupKey "name" kvs).bind decodeStr
    let s ← (lookupKey "source_ou_id" kvs).bind decodeStr
    let d ← (lookupKey "description" kvs).bind decodeStr
    pure { id := i, name := n, source_ou_id := s, description := d }
  | _ => none

/-- YAML document of a tenant record. -/
def encodeTenant (t : Tenant) : Yaml :=
  .map [("id", .str t.id), ("name", .str t.name),
        ("security_zone", .str t.security_zone)]

/-- Parse a tenant record back. -/
def decodeTenant : Yaml → Option Tenant
  | .map kvs => do
    let i ← (lookupKey "id" kvs).bind decodeStr
    let n ← (lookupKey "name" kvs).bind decodeStr
    let s ← (lookupKey "security_zone" kvs).bind decodeStr
    pure { id := i, name := n, security_zone := s }
  | _ => none

/-- YAML document of a subtenant dict. -/
def encodeSubtenant (st : Subtenant) : Yaml :=
  .map [("id", .str st.id), ("name", .str st.name),
        ("aws_accounts", .seq (st.aws_accounts.map .str)),
        ("description", .str st.description)]

/-- Parse a subtenant dict back. -/
def decodeSubtenant : Yaml → Option Subtenant
  | .map kvs => do
    let i ← (lookupKey "id" kvs).bind decodeStr
    let n ← (lookupKey "name" kvs).bind decodeStr
    let a ← (lookupKey "aws_accounts" kvs).bind decodeStrList
    let d ← (lookupKey "description" kvs).bind decodeStr
    pure { id := i, name := n, aws_accounts := a, description := d }
  | _ => none

/-- YAML document of a network-domain record. -/
def encodeDomain (nd : NetworkDomain) : Yaml :=
  .map [("id", .str nd.id), ("name", .str nd.name),
        ("vpcs", .seq (nd.vpcs.map .str))]

/-- Parse a network-domain record back. -/
def decodeDomain : Yaml → Option NetworkDomain
  | .map kvs => do
    let i ← (lookupKey "id" kvs).bind decodeStr
    let n ← (lookupKey "name" kvs).bind decodeStr
    let v ← (lookupKey "vpcs" kvs).bind decodeStrList
    pure { id := i, name := n, vpcs := v }
  | _ => none

/-- YAML document of a proposal dict: exactly the keys the dict holds
are emitted (no `id` key when the proposal has none, matching the
dicts `_generate_proposals` builds). -/
def encodeProposal (p : Proposal) : Yaml :=
  .map ((match p.id with
         | some i => [("id", Yaml.str i)]
         | none => []) ++
        [("type", Yaml.str p.type), ("description", Yaml.str p.description)] ++
        (match p.subtenants with
         | some l => [("subtenants", Yaml.seq (l.map Yaml.str))]
         | none => []) ++
        (match p.vpcs with
         | some l => [("vpcs", Yaml.seq (l.map Yaml.str))]
         | none => []) ++
        [("status", Yaml.str p.status)])

/-- Parse a proposal dict back; optional keys decode to `none` when
absent. -/
def decodeProposal : Yaml → Option Proposal
  | .map kvs => do
    let t ← (lookupKey "type" kvs).bind decodeStr
    let d ← (lookupKey "description" kvs).bind decodeStr
    let s ← (lookupKey "status" kvs).bind decodeStr
    pure { id := (lookupKey "id" kvs).bind decodeStr
           type := t
           description := d
           subtenants := (lookupKey "subtenants" kvs).bind decodeStrList
           vpcs := (lookupKey "vpcs" kvs).bind decodeStrList
           status := s }
  | _ => none

/-- YAML document of a whole mapping state: the five top-level keys
`yaml.dump` receives. -/
def encodeState (st : MappingState) : Yaml :=
  .map [("security_zones", .seq (st.security_zones.map encodeZone)),
        ("tenants", .seq (st.tenants.map encodeTenant)),
        ("subtenants", .seq (st.subtenants.map encodeSubtenant)),
        ("network_domains", .seq (st.network_domains.map encodeDomain)),
        ("proposals", .seq (st.proposals.map encodeProposal))]

/-- Parse a mapping-state document back (`yaml.safe_load` of a file
written by `save_state`). -/
def decodeState (y : Yaml) : Option MappingState :=
  match y with
  | .map kvs => do
    let z ← (lookupKey "security_zones" kvs).bind (decodeSeq decodeZone)
    let t ← (lookupKey "tenants" kvs).bind (decodeSeq decodeTenant)
    let s ← (lookupKey "subtenants" kvs).bind (decodeSeq decodeSubtenant)
    let n ← (lookupKey "network_domains" kvs).bind (decodeSeq decodeDomain)
    let p ← (lookupKey "proposals" kvs).bind (decodeSeq decodeProposal)
    pure { security_zones := z, tenants := t, subtenants := s,
           network_domains := n, proposals := p }
  | _ => none

/-- Errors `Phase1Mapper.save_state` can surface: the `RuntimeError`
raised when `run()` has not produced a state yet, kept distinct from
an I/O failure (`OSError`). -/
inductive Phase1Error where
  | noState
  | ioError (msg : String)
deriving DecidableEq, Repr

/-- `Phase1Mapper.save_state(output_path)`: with no state it raises the
"no state" `RuntimeError`; otherwise it creates parent directories and
writes the state's YAML document (the two leading `#` comment lines are
not YAML data). The filesystem write itself is assumed to succeed; its
result is the document written. -/
def save_state (state : Option MappingState) : Except Phase1Error Yaml :=
  match state with
  | none => .error .noState
  | some st => .ok (encodeState st)

/-! ## Phase 2 server (`cloudstrate/mapper/phase2.py`) -/

/-- Outcome of a proposal-mutation endpoint: `{"status": "ok"}` or the
404 `{"error": "Proposal not found"}` response. -/
inductive ApiResult where
  | ok
  | notFound
deriving DecidableEq, Repr

/-- A running `Phase2Server`: the in-memory `self.state` and the current
contents of the state file on disk (as a YAML document). -/
structure Phase2Server where
  state : MappingState
  state_file : Yaml

/-- The loop body of `accept_proposal` / `reject_proposal`: find the
first proposal whose `proposal.get("id")` equals `proposal_id`, set its
`status`, and report success; `none` when no proposal matches. -/
def update_proposal_status (proposal_id status : String) :
    List Proposal → Option (List Proposal)
  | [] => none
  | p :: ps =>
    if p.id == some proposal_id then
      some ({ p with status := status } :: ps)
    else
      (update_proposal_status proposal_id status ps).map (p :: ·)

/-- `Phase2Server._save_state()`: write the whole in-memory state back
to the state file. -/
def phase2_save_state (srv : Phase2Server) : Phase2Server :=
  { srv with state_file := encodeState srv.state }

/-- `POST /api/proposals/<id>/accept`: set the first matching proposal's
status to "accepted", persist, and return ok; otherwise 404 and no
change. -/
def accept_proposal (srv : Phase2Server) (proposal_id : String) :
    Phase2Server × ApiResult :=
  match update_proposal_status proposal_id "accepted" srv.state.proposals with
  | some ps => (phase2_save_state { srv with state := { srv.state with proposals := ps } }, .ok)
  | none => (srv, .notFound)

/-- `POST /api/proposals/<id>/reject`: set the first matching proposal's
status to "rejected", persist, and return ok; otherwise 404 and no
change. -/
def reject_proposal (srv : Phase2Server) (proposal_id : String) :
    Phase2Server × ApiResult :=
  match update_proposal_status proposal_id "rejected" srv.state.proposals with
  | some ps => (phase2_save_state { srv with state := { srv.state with proposals := ps } }, .ok)
  | none => (srv, .notFound)

/-- One review action against the server. -/
inductive ReviewOp where
  | accept (proposal_id : String)
  | reject (proposal_id : String)

/-- Apply one review action, keeping the resulting server. -/
def apply_op (srv : Phase2Server) : ReviewOp → Phase2Server
  | .accept pid => (accept_proposal srv pid).1
  | .reject pid => (reject_proposal srv pid).1

/-- Apply a sequence of review actions in order. -/
def apply_ops (srv : Phase2Server) : List ReviewOp → Phase2Server
  | [] => srv
  | op :: ops => apply_ops (apply_op srv op) ops

/-! ## Analyst query layer (`cloudstrate/analyst/query.py`) -/

/-- The `llm` section of a `CloudstrateConfig` (`config.llm.provider`). -/
structure LLMConfig where
  provider : String
deriving DecidableEq, Repr

/-- The slice of `CloudstrateConfig` the analyst reads. -/
structure CloudstrateConfig where
  llm : LLMConfig
deriving DecidableEq, Repr

/-- A row of query results (`dict(record)`), keys to scalar values. -/
abbrev Row := List (String × String)

/-- A Neo4j driver as the analyst uses it: running a Cypher query within
a session either yields the record list or raises (modelled as
`Except.error` with the exception message). -/
structure Driver where
  run : String → Except String (List Row)

/-- The environment `_get_driver` draws on: acquiring the driver itself
may raise (e.g. the `neo4j` import or `GraphDatabase.driver` failing),
which is modelled as `Except.error`. -/
structure AnalystEnv where
  get_driver : Except String Driver

/-- A query result dict. Optional fields model keys that may be absent
from the returned dict. -/
structure QueryResult where
  cypher : Option String
  data : List Row
  explanation : Option String := none
  error : Option String := none
  original_question : Option String := none
deriving DecidableEq, Repr

/-- The tuple of keywords in `AnalystQuery._is_cypher`. -/
def cypher_keywords : List String :=
  ["MATCH", "RETURN", "CREATE", "MERGE", "DELETE", "CALL", "WITH"]

/-- `AnalystQuery._is_cypher(text)`:
`text.strip().upper().startswith(cypher_keywords)`. -/
def is_cypher (text : String) : Bool :=
  cypher_keywords.any (fun k => k.data.isPrefixOf (pyUpper (pyStrip text)).data)

/-- `AnalystQuery._execute_cypher(cypher)`. Driver acquisition happens
before the `try` block, so an error there propagates (outer
`Except.error`); errors raised while opening the session or running the
query are caught and turned into a result dict with the error message
and empty data. -/
def execute_cypher (env : AnalystEnv) (cypher : String) :
    Except String QueryResult :=
  match env.get_driver with
  | .error e => .error e
  | .ok driver =>
    match driver.run cypher with
    | .ok records =>
      .ok { cypher := some cypher
            data := records
            explanation := some ("Executed Cypher query, returned " ++
              toString records.length ++ " results.") }
    | .error e =>
      .ok { cypher := some cypher, data := [], error := some e }

/-- `AnalystQuery._translate_with_llm(question)`: the source always
returns `None` (falling back to basic translation). -/
def translate_with_llm (question : String) : Option String := none

/-- The fixed pattern table of `AnalystQuery._translate_basic`. -/
def basic_patterns : List (List String × String) :=
  [(["accounts", "aws accounts", "all accounts"],
    "MATCH (a:AWSAccount) RETURN a.name as name, a.id as id LIMIT 50"),
   (["production", "prod accounts"],
    "MATCH (a:AWSAccount) WHERE a.name CONTAINS 'prod' OR a.name CONTAINS 'production' RETURN a.name as name, a.id as id"),
   (["vpcs", "virtual private clouds", "networks"],
    "MATCH (v:VPC) RETURN v.id as id, v.cidr as cidr LIMIT 50"),
   (["iam roles", "roles"],
    "MATCH (r:IAMRole) RETURN r.name as name, r.arn as arn LIMIT 50"),
   (["cross-account", "cross account", "trust relationships"],
    "MATCH (r:IAMRole)-[:TRUSTS]->(a:AWSAccount) RETURN r.name as role, a.name as trusted_account LIMIT 50"),
   (["security groups", "sgs"],
    "MATCH (sg:SecurityGroup) RETURN sg.name as name, sg.id as id LIMIT 50"),
   (["subnets"],
    "MATCH (s:Subnet) RETURN s.id as id, s.cidr as cidr, s.availability_zone as az LIMIT 50")]

/-- `AnalystQuery._translate_basic(question)`: first pattern whose
keyword set has a member occurring in the lowercased question wins. -/
def translate_basic (question : String) : Option String :=
  let question_lower := pyLower question
  (basic_patterns.find? (fun pat =>
    pat.1.any (fun kw => isSubstrOf kw.data question_lower.data))).map (·.2)

/-- The error message of the untranslatable-question result. -/
def no_translation_error : String :=
  "Could not translate question to Cypher. LLM integration required for natural language queries."

/-- `AnalystQuery._execute_natural_language(question)`: try the LLM path
when a config is present and its provider is not "disabled" (the LLM
translator always yields `None` in the source, so control falls
through), then the basic pattern table, else the structured
"could not translate" result. -/
def execute_natural_language (env : AnalystEnv)
    (config : Option CloudstrateConfig) (question : String) :
    Except String QueryResult :=
  let llm_attempt : Option String :=
    match config with
    | some c => if c.llm.provider != "disabled" then translate_with_llm question else none
    | none => none
  match llm_attempt with
  | some cypher =>
    (execute_cypher env cypher).map (fun r => { r with original_question := some question })
  | none =>
    match translate_basic question with
    | some cypher =>
      (execute_cypher env cypher).map (fun r => { r with original_question := some question })
    | none =>
      .ok { cypher := none
            data := []
            error := some no_translation_error
            original_question := some question }

/-- `AnalystQuery.execute(question)`: dispatch on `_is_cypher`. -/
def execute (env : AnalystEnv) (config : Option CloudstrateConfig)
    (question : String) : Except String QueryResult :=
  if is_cypher question then execute_cypher env question
  else execute_natural_language env config question

/-! ## Helper lemmas -/

/-- The subtenant list built by `_map_basic`, one dict per account. -/
lemma map_basic_subtenants (scan : ScanResult) (decisions : Yaml) :
    (map_basic scan decisions).subtenants = scan.accounts.map (fun account =>
      { id := "st-" ++ account.id
        name := account.name.getD account.id
        aws_accounts := [account.id]
        description := "Subtenant for account: " ++ account.name.getD account.id }) := rfl

/-- The security-zone list built by `_map_basic`, one dict per OU. -/
lemma map_basic_zones (scan : ScanResult) (decisions : Yaml) :
    (map_basic scan decisions).security_zones = scan.organizational_units.map (fun ou =>
      { id := "sz-" ++ pyReplace ou.id "ou-" ""
        name := ou.name.getD ou.id
        source_ou_id := ou.id
        description := "Security zone from OU: " ++ ou.name.getD ou.id }) := rfl

/-- The tenant-grouping proposal dict, over a given subtenant list. -/
def tenant_grouping_of (subtenants : List Subtenant) : Proposal :=
  { type := "tenant_grouping"
    description := "Group subtenants into logical tenants"
    subtenants := some (subtenants.map (·.id))
    status := "pending" }

/-- The network-domain proposal dict, over a given VPC list. -/
def network_domain_of (vpcs : List Vpc) : Proposal :=
  { type := "network_domain"
    description := "Create network domains from " ++ toString vpcs.length ++ " VPCs"
    vpcs := some (vpcs.map (·.id))
    status := "pending" }

/-- Closed form of `_generate_proposals`: the two conditional appends. -/
lemma generate_proposals_eq (state : MappingState) (scan : ScanResult) :
    generate_proposals state scan =
      (if 1 < state.subtenants.length then [tenant_grouping_of state.subtenants] else []) ++
      (if scan.vpcs.isEmpty then [] else [network_domain_of scan.vpcs]) := by
  simp only [generate_proposals, tenant_grouping_of, network_domain_of]
  split <;> split <;> simp

/-- What `_map_basic` stores under `proposals`. -/
lemma map_basic_proposals (scan : ScanResult) (decisions : Yaml) :
    (map_basic scan decisions).proposals =
      (if 1 < (map_basic scan decisions).subtenants.length
        then [tenant_grouping_of (map_basic scan decisions).subtenants] else []) ++
      (if scan.vpcs.isEmpty then [] else [network_domain_of scan.vpcs]) := by
  have : (map_basic scan decisions).proposals =
      generate_proposals (map_basic scan decisions) scan := rfl
  rw [this, generate_proposals_eq]

/-- Generic round trip for elementwise decoding of an encoded list. -/
lemma decodeList_roundtrip {α : Type} (f : Yaml → Option α) (g : α → Yaml)
    (hfg : ∀ a, f (g a) = some a) (l : List α) :
    decodeList f (l.map g) = some l := by
  induction l with
  | nil => rfl
  | cons a l ih => simp [decodeList, hfg, ih]

/-- Round trip for string-list payloads. -/
lemma decodeStrList_roundtrip (l : List String) :
    decodeStrList (Yaml.seq (l.map Yaml.str)) = some l :=
  decodeList_roundtrip decodeStr Yaml.str (fun _ => rfl) l

/-- Security-zone dicts decode back to themselves. -/
lemma decodeZone_roundtrip (z : SecurityZone) :
    decodeZone (encodeZone z) = some z := rfl

/-- Tenant records decode back to themselves. -/
lemma decodeTenant_roundtrip (t : Tenant) :
    decodeTenant (encodeTenant t) = some t := rfl

/-- Subtenant dicts decode back to themselves. -/
lemma decodeSubtenant_roundtrip (st : Subtenant) :
    decodeSubtenant (encodeSubtenant st) = some st := by
  simp [encodeSubtenant, decodeSubtenant, lookupKey, decodeStr,
    decodeStrList_roundtrip]

/-- Network-domain records decode back to themselves. -/
lemma decodeDomain_roundtrip (nd : NetworkDomain) :
    decodeDomain (encodeDomain nd) = some nd := by
  simp [encodeDomain, decodeDomain, lookupKey, decodeStr,
    decodeStrList_roundtrip]

/-- Proposal dicts decode back to themselves, whatever optional keys
they carry. -/
lemma decodeProposal_roundtrip (p : Proposal) :
    decodeProposal (encodeProposal p) = some p := by
  rcases p with ⟨i, t, d, sub, vp, s⟩
  rcases i with _ | i <;> rcases sub with _ | sub <;> rcases vp with _ | vp <;>
    simp [encodeProposal, decodeProposal, lookupKey, decodeStr,
      decodeStrList_roundtrip]

/-- A whole saved mapping-state document decodes back to the state that
was saved. -/
lemma decodeState_roundtrip (st : MappingState) :
    decodeState (encodeState st) = some st := by
  rcases st with ⟨z, t, s, n, p⟩
  simp [encodeState, decodeState, lookupKey, decodeSeq,
    decodeList_roundtrip decodeZone encodeZone decodeZone_roundtrip,
    decodeList_roundtrip decodeTenant encodeTenant decodeTenant_roundtrip,
    decodeList_roundtrip decodeSubtenant encodeSubtenant decodeSubtenant_roundtrip,
    decodeList_roundtrip decodeDomain encodeDomain decodeDomain_roundtrip,
    decodeList_roundtrip decodeProposal encodeProposal decodeProposal_roundtrip]

/-! ## Claim theorems -/

/-- Claim C1: for every scan result with N organizational units and M
accounts, the basic fallback mapping returns exactly N security zones
and M subtenants, the i-th zone derived from the i-th OU and the j-th
subtenant from the j-th account, in input order. -/
theorem phase1_counts_and_order (scan : ScanResult) (decisions : Yaml) :
    (map_basic scan decisions).security_zones.length = scan.organizational_units.length ∧
    (map_basic scan decisions).subtenants.length = scan.accounts.length ∧
    (∀ (i : Nat) (ou : OrgUnit), scan.organizational_units[i]? = some ou →
      (map_basic scan decisions).security_zones[i]? =
        some { id := "sz-" ++ pyReplace ou.id "ou-" ""
               name := ou.name.getD ou.id
               source_ou_id := ou.id
               description := "Security zone from OU: " ++ ou.name.getD ou.id }) ∧
    (∀ (j : Nat) (account : Account), scan.accounts[j]? = some account →
      (map_basic scan decisions).subtenants[j]? =
        some { id := "st-" ++ account.id
               name := account.name.getD account.id
               aws_accounts := [account.id]
               description := "Subtenant for account: " ++ account.name.getD account.id }) := by
  refine ⟨?_, ?_, ?_, ?_⟩
  · rw [map_basic_zones]; exact List.length_map _ _
  · rw [map_basic_subtenants]; exact List.length_map _ _
  · intro i ou h
    rw [map_basic_zones, List.getElem?_map, h]
    rfl
  · intro j account h
    rw [map_basic_subtenants, List.getElem?_map, h]
    rfl

/-- Witness for C1 on a concrete scan result. -/
theorem phase1_counts_and_order_witness :
    ([({ id := "ou-root-prod", name := some "Production" } : OrgUnit)])[0]? =
      some { id := "ou-root-prod", name := some "Production" } ∧
    (map_basic { organizational_units := [{ id := "ou-root-prod", name := some "Production" }]
                 accounts := [{ id := "111", name := some "A" }]
                 vpcs := [] } (Yaml.map [])).security_zones[0]? =
      some { id := "sz-root-prod", name := "Production",
             source_ou_id := "ou-root-prod",
             description := "Security zone from OU: Production" } := by
  refine ⟨rfl, ?_⟩
  rw [(phase1_counts_and_order
        { organizational_units := [{ id := "ou-root-prod", name := some "Production" }]
          accounts := [{ id := "111", name := some "A" }]
          vpcs := [] } (Yaml.map [])).2.2.1 0
        { id := "ou-root-prod", name := some "Production" } rfl]
  decide

/-- Claim C2: the basic proposal policy emits exactly one
tenant-grouping proposal (listing all subtenant ids, pending) iff more
than one subtenant exists, exactly one network-domain proposal (listing
all VPC ids, pending) iff the scan result has at least one VPC, and at
most two proposals in total. -/
theorem phase1_proposal_policy (scan : ScanResult) (decisions : Yaml) :
    ((map_basic scan decisions).proposals.countP (fun p => p.type == "tenant_grouping") =
      if 1 < (map_basic scan decisions).subtenants.length then 1 else 0) ∧
    ((map_basic scan decisions).proposals.countP (fun p => p.type == "network_domain") =
      if scan.vpcs.isEmpty then 0 else 1) ∧
    (∀ p ∈ (map_basic scan decisions).proposals, p.type = "tenant_grouping" →
      p.subtenants = some ((map_basic scan decisions).subtenants.map (·.id)) ∧
      p.status = "pending") ∧
    (∀ p ∈ (map_basic scan decisions).proposals, p.type = "network_domain" →
      p.vpcs = some (scan.vpcs.map (·.id)) ∧ p.status = "pending") ∧
    (map_basic scan decisions).proposals.length ≤ 2 := by
  rw [map_basic_proposals scan decisions]
  refine ⟨?_, ?_, ?_, ?_, ?_⟩ <;>
    split <;> split <;>
      simp_all [tenant_grouping_of, network_domain_of, List.countP_append, List.countP_cons]

/-- Witness for C2 on a concrete scan result (two accounts, one VPC). -/
theorem phase1_proposal_policy_witness :
    (map_basic { organizational_units := []
                 accounts := [{ id := "111" }, { id := "222" }]
                 vpcs := [{ id := "vpc-9" }] } (Yaml.map [])).proposals.countP
        (fun p => p.type == "tenant_grouping") = 1 ∧
    ({ id := none, type := "tenant_grouping",
       description := "Group subtenants into logical tenants",
       subtenants := some ["st-111", "st-222"], vpcs := none,
       status := "pending" } : Proposal) ∈
      (map_basic { organizational_units := []
                   accounts := [{ id := "111" }, { id := "222" }]
                   vpcs := [{ id := "vpc-9" }] } (Yaml.map [])).proposals ∧
    (some ["st-111", "st-222"] : Option (List String)) =
      some ((map_basic { organizational_units := []
                         accounts := [{ id := "111" }, { id := "222" }]
                         vpcs := [{ id := "vpc-9" }] } (Yaml.map [])).subtenants.map (·.id)) := by
  refine ⟨?_, by decide, ?_⟩
  · rw [(phase1_proposal_policy
      { organizational_units := []
        accounts := [{ id := "111" }, { id := "222" }]
        vpcs := [{ id := "vpc-9" }] } (Yaml.map [])).1]
    decide
  · rw [← ((phase1_proposal_policy
      { organizational_units := []
        accounts := [{ id := "111" }, { id := "222" }]
        vpcs := [{ id := "vpc-9" }] } (Yaml.map [])).2.2.1
      { id := none, type := "tenant_grouping",
        description := "Group subtenants into logical tenants",
        subtenants := some ["st-111", "st-222"], vpcs := none,
        status := "pending" } (by decide) rfl).1]

/-- Claim C8: saving before `run()` fails with the distinct "no state"
precondition error (not an I/O error) and writes nothing; after a
successful run, saving always produces the state's document. -/
theorem save_state_precondition (scan : ScanResult) (decisions : Yaml) :
    save_state none = .error Phase1Error.noState ∧
    (∀ msg, Phase1Error.noState ≠ Phase1Error.ioError msg) ∧
    save_state (some (map_basic scan decisions)) =
      .ok (encodeState (map_basic scan decisions)) := by
  refine ⟨rfl, ?_, rfl⟩
  intro msg h
  exact Phase1Error.noConfusion h

/-- Witness for C8. -/
theorem save_state_precondition_witness :
    save_state none = .error Phase1Error.noState ∧
    Phase1Error.noState ≠ Phase1Error.ioError "disk full" :=
  ⟨(save_state_precondition {} (Yaml.map [])).1,
   (save_state_precondition {} (Yaml.map [])).2.1 "disk full"⟩

/-- Claim C9: a state produced by the basic mapping, saved and then
reloaded from the written document, round-trips to a value equal to the
in-memory state. -/
theorem save_load_roundtrip (scan : ScanResult) (decisions : Yaml) :
    save_state (some (map_basic scan decisions)) =
      .ok (encodeState (map_basic scan decisions)) ∧
    decodeState (encodeState (map_basic scan decisions)) =
      some (map_basic scan decisions) :=
  ⟨rfl, decodeState_roundtrip _⟩

/-! ## Phase 2 proposal-mutation lemmas -/

/-- `update_proposal_status` fails exactly when no proposal carries the
requested id. -/
lemma update_proposal_status_eq_none (pid status : String)
    (ps : List Proposal) :
    update_proposal_status pid status ps = none ↔
      ∀ p ∈ ps, p.id ≠ some pid := by
  induction ps with
  | nil => simp [update_proposal_status]
  | cons p ps ih =>
    by_cases h : p.id = some pid
    · simp [update_proposal_status, h]
    · simp [update_proposal_status, h, Option.map_eq_none', ih]

/-- A successful `update_proposal_status` sets the status of the first
proposal carrying the id and leaves everything else untouched. -/
lemma update_proposal_status_eq_some (pid status : String)
    (ps ps' : List Proposal)
    (h : update_proposal_status pid status ps = some ps') :
    ∃ (i : Nat) (p : Proposal), ps[i]? = some p ∧ p.id = some pid ∧
      ps' = ps.set i { p with status := status } := by
  induction ps generalizing ps' with
  | nil => simp [update_proposal_status] at h
  | cons q qs ih =>
    by_cases hq : q.id = some pid
    · refine ⟨0, q, by simp, hq, ?_⟩
      simp [update_proposal_status, hq] at h
      simp [← h, hq]
    · simp [update_proposal_status, hq, Option.map_eq_some'] at h
      obtain ⟨qs', hqs', rfl⟩ := h
      obtain ⟨i, p, hip, hpid, rfl⟩ := ih qs' hqs'
      exact ⟨i + 1, p, by simpa using hip, hpid, rfl⟩

/-- Claim C3: for a present proposal id, accept/reject set that
proposal's status and immediately persist the whole state before
returning ok; for an absent id both calls return not-found and leave
the in-memory state and the file untouched. -/
theorem proposal_accept_reject (srv : Phase2Server) (pid : String) :
    ((∃ p ∈ srv.state.proposals, p.id = some pid) →
      ((accept_proposal srv pid).2 = .ok ∧
       (accept_proposal srv pid).1.state_file =
         encodeState (accept_proposal srv pid).1.state ∧
       (∃ (i : Nat) (p : Proposal), srv.state.proposals[i]? = some p ∧
         p.id = some pid ∧
         (accept_proposal srv pid).1.state =
           { srv.state with proposals :=
               srv.state.proposals.set i { p with status := "accepted" } }) ∧
       (reject_proposal srv pid).2 = .ok ∧
       (reject_proposal srv pid).1.state_file =
         encodeState (reject_proposal srv pid).1.state ∧
       (∃ (i : Nat) (p : Proposal), srv.state.proposals[i]? = some p ∧
         p.id = some pid ∧
         (reject_proposal srv pid).1.state =
           { srv.state with proposals :=
               srv.state.proposals.set i { p with status := "rejected" } }))) ∧
    ((∀ p ∈ srv.state.proposals, p.id ≠ some pid) →
      accept_proposal srv pid = (srv, .notFound) ∧
      reject_proposal srv pid = (srv, .notFound)) := by
  constructor
  · intro hex
    have ha : update_proposal_status pid "accepted" srv.state.proposals ≠ none := by
      rw [Ne, update_proposal_status_eq_none]
      push_neg
      obtain ⟨p, hp, hid⟩ := hex
      exact ⟨p, hp, hid⟩
    have hr : update_proposal_status pid "rejected" srv.state.proposals ≠ none := by
      rw [Ne, update_proposal_status_eq_none]
      push_neg
      obtain ⟨p, hp, hid⟩ := hex
      exact ⟨p, hp, hid⟩
    obtain ⟨psa, hpsa⟩ := Option.ne_none_iff_exists'.mp ha
    obtain ⟨psr, hpsr⟩ := Option.ne_none_iff_exists'.mp hr
    obtain ⟨i, p, hip, hpid, rfl⟩ :=
      update_proposal_status_eq_some _ _ _ _ hpsa
    obtain ⟨j, q, hjq, hqid, rfl⟩ :=
      update_proposal_status_eq_some _ _ _ _ hpsr
    refine ⟨?_, ?_, ⟨i, p, hip, hpid, ?_⟩, ?_, ?_, ⟨j, q, hjq, hqid, ?_⟩⟩ <;>
      simp [accept_proposal, reject_proposal, hpsa, hpsr, phase2_save_state]
  · intro habs
    have ha : update_proposal_status pid "accepted" srv.state.proposals = none :=
      (update_proposal_status_eq_none _ _ _).mpr habs
    have hr : update_proposal_status pid "rejected" srv.state.proposals = none :=
      (update_proposal_status_eq_none _ _ _).mpr habs
    exact ⟨by simp [accept_proposal, ha], by simp [reject_proposal, hr]⟩

/-- Witness for C3: one pending proposal with id "p1" is accepted. -/
theorem proposal_accept_reject_witness :
    (∃ p ∈ [({ id := some "p1", type := "tenant_grouping",
               description := "Group apps", status := "pending" } : Proposal)],
       p.id = some "p1") ∧
    (accept_proposal
      { state := { proposals := [{ id := some "p1", type := "tenant_grouping",
                                   description := "Group apps",
                                   status := "pending" }] }
        state_file := Yaml.map [] } "p1").2 = ApiResult.ok := by
  refine ⟨⟨{ id := some "p1", type := "tenant_grouping",
             description := "Group apps", status := "pending" },
           by simp, rfl⟩, ?_⟩
  exact ((proposal_accept_reject
    { state := { proposals := [{ id := some "p1", type := "tenant_grouping",
                                 description := "Group apps",
                                 status := "pending" }] }
      state_file := Yaml.map [] } "p1").1
    ⟨{ id := some "p1", type := "tenant_grouping",
       description := "Group apps", status := "pending" },
     by simp, rfl⟩).1

/-- Pointwise effect of one successful status update: every position is
either untouched or overwritten with the requested status. -/
lemma update_proposal_status_pointwise (pid status : String)
    (ps ps' : List Proposal)
    (h : update_proposal_status pid status ps = some ps')
    (i : Nat) (q : Proposal) (hq : ps'[i]? = some q) :
    ps[i]? = some q ∨ q.status = status := by
  obtain ⟨j, p, hjp, _, rfl⟩ := update_proposal_status_eq_some _ _ _ _ h
  by_cases hij : j = i
  · subst hij
    obtain ⟨hlt, -⟩ := List.getElem?_eq_some.mp hjp
    right
    rw [List.getElem?_set_self hlt] at hq
    exact (Option.some.inj hq) ▸ rfl
  · left
    rwa [List.getElem?_set_ne hij] at hq

/-- One review action never shrinks or grows the proposal list. -/
lemma apply_op_length (srv : Phase2Server) (op : ReviewOp) :
    (apply_op srv op).state.proposals.length = srv.state.proposals.length := by
  rcases op with pid | pid <;>
    simp only [apply_op, accept_proposal, reject_proposal] <;>
    rcases h : update_proposal_status pid _ srv.state.proposals with _ | ps' <;>
    simp [phase2_save_state]
  all_goals
    obtain ⟨i, p, _, _, rfl⟩ := update_proposal_status_eq_some _ _ _ _ h
    simp

/-- Pointwise effect of one review action. -/
lemma apply_op_pointwise (srv : Phase2Server) (op : ReviewOp)
    (i : Nat) (q : Proposal)
    (hq : (apply_op srv op).state.proposals[i]? = some q) :
    srv.state.proposals[i]? = some q ∨
      q.status = "accepted" ∨ q.status = "rejected" := by
  rcases op with pid | pid
  · simp only [apply_op, accept_proposal] at hq
    rcases h : update_proposal_status pid "accepted" srv.state.proposals with _ | ps'
    · rw [h] at hq; exact .inl hq
    · rw [h] at hq
      simp only [phase2_save_state] at hq
      rcases update_proposal_status_pointwise _ _ _ _ h i q hq with h' | h'
      · exact .inl h'
      · exact .inr (.inl h')
  · simp only [apply_op, reject_proposal] at hq
    rcases h : update_proposal_status pid "rejected" srv.state.proposals with _ | ps'
    · rw [h] at hq; exact .inl hq
    · rw [h] at hq
      simp only [phase2_save_state] at hq
      rcases update_proposal_status_pointwise _ _ _ _ h i q hq with h' | h'
      · exact .inl h'
      · exact .inr (.inr h')

/-- Claim C4 counterexample: a proposal whose status is already
"accepted" is overwritten to "rejected" by a later reject call with the
same id, so an accepted status is not terminal. -/
theorem proposal_terminal_overwrite_counterexample :
    ((accept_proposal
        { state := { proposals := [{ id := some "p1", type := "tenant_grouping",
                                     description := "", status := "pending" }] }
          state_file := Yaml.map [] } "p1").1.state.proposals.map (·.status) =
      ["accepted"]) ∧
    ((reject_proposal
        (accept_proposal
          { state := { proposals := [{ id := some "p1", type := "tenant_grouping",
                                       description := "", status := "pending" }] }
            state_file := Yaml.map [] } "p1").1
        "p1").1.state.proposals.map (·.status) = ["rejected"]) :=
  ⟨rfl, rfl⟩

/-- Claim C4 as amended: under any sequence of accept/reject operations
the proposal list keeps its length, and every proposal is either still
exactly its initial record or carries one of the two terminal statuses
"accepted"/"rejected" — in particular no operation ever writes
"pending", so a proposal never re-enters the pending state; terminal
statuses, however, can overwrite one another. -/
theorem proposal_status_evolution (ops : List ReviewOp) (srv : Phase2Server) :
    (apply_ops srv ops).state.proposals.length = srv.state.proposals.length ∧
    ∀ (i : Nat) (q : Proposal),
      (apply_ops srv ops).state.proposals[i]? = some q →
      srv.state.proposals[i]? = some q ∨
        q.status = "accepted" ∨ q.status = "rejected" := by
  induction ops generalizing srv with
  | nil => exact ⟨rfl, fun i q hq => .inl hq⟩
  | cons op ops ih =>
    refine ⟨?_, ?_⟩
    · calc (apply_ops (apply_op srv op) ops).state.proposals.length
          = (apply_op srv op).state.proposals.length := (ih (apply_op srv op)).1
        _ = srv.state.proposals.length := apply_op_length srv op
    · intro i q hq
      rcases (ih (apply_op srv op)).2 i q hq with h' | h'
      · exact apply_op_pointwise srv op i q h'
      · exact .inr h'

/-- Witness for the amended C4 on a concrete accept-then-reject run. -/
theorem proposal_status_evolution_witness :
    (apply_ops
      { state := { proposals := [{ id := some "p1", type := "tenant_grouping",
                                   description := "", status := "pending" }] }
        state_file := Yaml.map [] }
      [ReviewOp.accept "p1", ReviewOp.reject "p1"]).state.proposals.length = 1 ∧
    ((([({ id := some "p1", type := "tenant_grouping", description := "",
           status := "pending" } : Proposal)])[0]? =
        some { id := some "p1", type := "tenant_grouping", description := "",
               status := "rejected" }) ∨
      ({ id := some "p1", type := "tenant_grouping", description := "",
         status := "rejected" } : Proposal).status = "accepted" ∨
      ({ id := some "p1", type := "tenant_grouping", description := "",
         status := "rejected" } : Proposal).status = "rejected") := by
  constructor
  · exact (proposal_status_evolution [ReviewOp.accept "p1", ReviewOp.reject "p1"]
      { state := { proposals := [{ id := some "p1", type := "tenant_grouping",
                                   description := "", status := "pending" }] }
        state_file := Yaml.map [] }).1
  · exact (proposal_status_evolution [ReviewOp.accept "p1", ReviewOp.reject "p1"]
      { state := { proposals := [{ id := some "p1", type := "tenant_grouping",
                                   description := "", status := "pending" }] }
        state_file := Yaml.map [] }).2 0
      { id := some "p1", type := "tenant_grouping", description := "",
        status := "rejected" } rfl

/-- Claim C10: every proposal emitted by the default basic policy lacks
an `id` key, so on a state produced by that policy every accept/reject
call returns the not-found result and changes nothing, whatever
proposal id the caller supplies. -/
theorem generated_proposals_have_no_id (scan : ScanResult) (decisions : Yaml)
    (file : Yaml) (pid : String) :
    (∀ p ∈ (map_basic scan decisions).proposals, p.id = none) ∧
    accept_proposal { state := map_basic scan decisions, state_file := file } pid =
      ({ state := map_basic scan decisions, state_file := file }, .notFound) ∧
    reject_proposal { state := map_basic scan decisions, state_file := file } pid =
      ({ state := map_basic scan decisions, state_file := file }, .notFound) := by
  have hid : ∀ p ∈ (map_basic scan decisions).proposals, p.id = none := by
    rw [map_basic_proposals]
    intro p hp
    rcases List.mem_append.mp hp with h | h <;>
      [skip; skip] <;>
      · split at h <;>
        simp_all [tenant_grouping_of, network_domain_of]
  have habs : ∀ p ∈ (map_basic scan decisions).proposals, p.id ≠ some pid := by
    intro p hp
    rw [hid p hp]
    simp
  have ha : update_proposal_status pid "accepted" (map_basic scan decisions).proposals = none :=
    (update_proposal_status_eq_none _ _ _).mpr habs
  have hr : update_proposal_status pid "rejected" (map_basic scan decisions).proposals = none :=
    (update_proposal_status_eq_none _ _ _).mpr habs
  exact ⟨hid, by simp [accept_proposal, ha], by simp [reject_proposal, hr]⟩

/-- Claim C5: a question that, after trimming and uppercasing, starts
with one of the seven keywords is executed directly and verbatim as
Cypher (never reaching keyword translation); any other question takes
the natural-language path. -/
theorem analyst_keyword_dispatch (env : AnalystEnv)
    (config : Option CloudstrateConfig) (question : String) :
    (is_cypher question = true ↔
      ∃ k ∈ cypher_keywords, k.data <+: (pyUpper (pyStrip question)).data) ∧
    (is_cypher question = true →
      execute env config question = execute_cypher env question) ∧
    (is_cypher question = false →
      execute env config question =
        execute_natural_language env config question) := by
  refine ⟨?_, ?_, ?_⟩
  · simp [is_cypher, List.any_eq_true, List.isPrefixOf_iff_prefix]
  · intro h; simp [execute, h]
  · intro h; simp [execute, h]

/-- Witness for C5 on a lowercase keyword-led question. -/
theorem analyst_keyword_dispatch_witness :
    is_cypher "  match (n) return n" = true ∧
    execute { get_driver := Except.ok { run := fun _ => Except.ok [] } } none
        "  match (n) return n" =
      execute_cypher { get_driver := Except.ok { run := fun _ => Except.ok [] } }
        "  match (n) return n" :=
  ⟨by decide,
   (analyst_keyword_dispatch
      { get_driver := Except.ok { run := fun _ => Except.ok [] } } none
      "  match (n) return n").2.1 (by decide)⟩

/-- Claim C6 counterexample: when acquiring the driver itself raises
(the call outside the try block), the exception propagates to the
caller instead of being converted into a structured result. -/
theorem analyst_driver_error_propagates_counterexample :
    execute { get_driver := Except.error "ServiceUnavailable: cannot create driver" }
        none "MATCH (n) RETURN n" =
      Except.error "ServiceUnavailable: cannot create driver" := by
  have h : is_cypher "MATCH (n) RETURN n" = true := by decide
  simp [execute, h, execute_cypher]

/-- The LLM translator of this source never yields a query, so the
natural-language path reduces to basic translation for every
configuration. -/
lemma execute_natural_language_eq (env : AnalystEnv)
    (config : Option CloudstrateConfig) (question : String) :
    execute_natural_language env config question =
      match translate_basic question with
      | some cy => (execute_cypher env cy).map
          (fun r => { r with original_question := some question })
      | none => .ok { cypher := none, data := [],
                      error := some no_translation_error,
                      original_question := some question } := by
  unfold execute_natural_language
  rcases config with _ | c <;> simp [translate_with_llm]

/-- Claim C6 as amended: provided driver acquisition succeeds, query
execution never propagates an exception — every call returns a
structured result, and an error raised while running a query inside the
session is returned as a result with the error message and empty
data. -/
theorem analyst_no_exception_given_driver (env : AnalystEnv)
    (config : Option CloudstrateConfig) (question : String) (d : Driver)
    (h : env.get_driver = Except.ok d) :
    (∃ r : QueryResult, execute env config question = .ok r) ∧
    (∀ cy e, d.run cy = .error e →
      execute_cypher env cy =
        .ok { cypher := some cy, data := [], error := some e }) := by
  have hcy : ∀ cy, ∃ r : QueryResult, execute_cypher env cy = .ok r := by
    intro cy
    rcases hr : d.run cy with e | records
    · exact ⟨{ cypher := some cy, data := [], error := some e },
        by simp [execute_cypher, h, hr]⟩
    · exact ⟨{ cypher := some cy, data := records,
               explanation := some ("Executed Cypher query, returned " ++
                 toString records.length ++ " results.") },
        by simp [execute_cypher, h, hr]⟩
  constructor
  · by_cases hq : is_cypher question
    · rw [(analyst_keyword_dispatch env config question).2.1 hq]
      exact hcy question
    · rw [(analyst_keyword_dispatch env config question).2.2
        (by simpa using hq), execute_natural_language_eq]
      rcases ht : translate_basic question with _ | cy
      · exact ⟨{ cypher := none, data := [],
                 error := some no_translation_error,
                 original_question := some question }, rfl⟩
      · obtain ⟨r, hr⟩ := hcy cy
        exact ⟨{ r with original_question := some question },
          by simp [hr, Except.map]⟩
  · intro cy e hre
    simp [execute_cypher, h, hre]

/-- Witness for the amended C6: a session whose run always raises. -/
theorem analyst_no_exception_given_driver_witness :
    (∃ r : QueryResult,
      execute { get_driver := Except.ok { run := fun _ => Except.error "boom" } }
        none "MATCH (n) RETURN n" = .ok r) ∧
    execute_cypher { get_driver := Except.ok { run := fun _ => Except.error "boom" } }
        "MATCH (n) RETURN n" =
      .ok { cypher := some "MATCH (n) RETURN n", data := [],
            error := some "boom" } :=
  ⟨(analyst_no_exception_given_driver
      { get_driver := Except.ok { run := fun _ => Except.error "boom" } }
      none "MATCH (n) RETURN n" { run := fun _ => Except.error "boom" } rfl).1,
   (analyst_no_exception_given_driver
      { get_driver := Except.ok { run := fun _ => Except.error "boom" } }
      none "MATCH (n) RETURN n" { run := fun _ => Except.error "boom" } rfl).2
     "MATCH (n) RETURN n" "boom" rfl⟩

/-- Every structured result `_execute_cypher` returns carries the query
text and an explanation or an error. -/
lemma execute_cypher_shape (env : AnalystEnv) (cy : String)
    (r : QueryResult) (h : execute_cypher env cy = .ok r) :
    r.cypher = some cy ∧
    (r.explanation.isSome = true ∨ r.error.isSome = true) := by
  unfold execute_cypher at h
  split at h
  · cases h
  · split at h <;> cases h <;> simp

/-- Claim C7: every result `execute` returns carries a (possibly null)
query text, a data collection, and at least one of an explanation or an
error; a question on the natural-language path matching no fallback
keyword set yields exactly the empty-data result with a non-null
error (whatever LLM configuration is present, since the LLM translator
of this source never produces a query). -/
theorem analyst_result_shape (env : AnalystEnv)
    (config : Option CloudstrateConfig) (question : String) :
    (∀ r : QueryResult, execute env config question = .ok r →
      r.explanation.isSome = true ∨ r.error.isSome = true) ∧
    (is_cypher question = false → translate_basic question = none →
      execute env config question =
        .ok { cypher := none, data := [], error := some no_translation_error,
              original_question := some question }) := by
  constructor
  · intro r hr
    by_cases hq : is_cypher question
    · rw [(analyst_keyword_dispatch env config question).2.1 hq] at hr
      exact (execute_cypher_shape env question r hr).2
    · rw [(analyst_keyword_dispatch env config question).2.2
        (by simpa using hq), execute_natural_language_eq] at hr
      split at hr
      · rename_i cy ht
        rcases hec : execute_cypher env cy with e | r0 <;>
          rw [hec] at hr <;> simp only [Except.map] at hr
        · cases hr
        · cases hr
          have := (execute_cypher_shape env cy r0 hec).2
          simpa using this
      · cases hr
        simp
  · intro hq ht
    rw [(analyst_keyword_dispatch env config question).2.2 hq,
      execute_natural_language_eq, ht]

/-- Witness for C7: an untranslatable question with no LLM configured
yields the empty-data error result. -/
theorem analyst_result_shape_witness :
    execute { get_driver := Except.ok { run := fun _ => Except.ok [] } } none
        "how is the weather" =
      .ok { cypher := none, data := [], error := some no_translation_error,
            original_question := some "how is the weather" } :=
  (analyst_result_shape
    { get_driver := Except.ok { run := fun _ => Except.ok [] } } none
    "how is the weather").2 (by decide) (by decide)

end Cloudstrate
